import Mathlib

/-!
Verification of the submission evaluation and scoring engine of
`Backend-Only-Lambda-Functions/EvaluateSubmission-dev.py`.

The Python functions `find_student_answer`, `evaluate_single_question`,
`smart_math_fallback`, `enhanced_fallback_evaluation`, `evaluate_math_answer`,
`evaluate_text_answer`, `parse_bedrock_evaluation`, `evaluate_with_bedrock`,
`calculate_final_score` and `get_max_score_from_results` are embedded as
executable Lean functions.  Python strings are Lean `String`s (worked on as
`List Char`), Python numbers are `ℚ` with exact arithmetic, Python `set`s of
strings are `Finset String`, and the external Bedrock text service is a
parameter of type `String → Except Unit String` (model id to raw output text,
or an exception).
-/

unseal Rat.add Rat.sub Rat.mul Rat.inv Rat.ofScientific

/-- Python `\s` whitespace characters (ASCII range, as used by `str.split`,
`str.strip` and the `re` module in this code base). -/
def pyWs (c : Char) : Bool :=
  c = ' ' || c = '\t' || c = '\n' || c = '\r' || c = '\x0b' || c = '\x0c'

/-- Python `str.lower()` (ASCII case mapping, which covers every string the
evaluation engine manipulates). -/
def pyLower (s : String) : String :=
  ⟨s.data.map Char.toLower⟩

/-- Python `str.strip()` on the character list: drop whitespace from both ends. -/
def stripCs (cs : List Char) : List Char :=
  ((cs.dropWhile pyWs).reverse.dropWhile pyWs).reverse

/-- Python truthiness test `not s or s.strip() == ""` used by the fallback
evaluators for "no answer". -/
def pyIsBlank (s : String) : Bool :=
  s = "" || stripCs s.data = []

/-- Helper for Python `str.split()`: accumulate the current word (reversed)
while scanning. -/
def splitWsAux : List Char → List Char → List (List Char)
  | [], acc => if acc = [] then [] else [acc.reverse]
  | c :: rest, acc =>
    if pyWs c then
      if acc = [] then splitWsAux rest [] else acc.reverse :: splitWsAux rest []
    else
      splitWsAux rest (c :: acc)

/-- Python `str.split()` with no argument: split on whitespace runs and drop
empty pieces. -/
def pySplitWs (s : String) : List String :=
  (splitWsAux s.data []).map fun cs => (⟨cs⟩ : String)

/-- Fuel-driven core of Python `str.replace(pat, rep)` for a nonempty `pat`:
scan left to right, replacing non-overlapping occurrences.  The fuel is the
length of the scanned list, which each step strictly decreases. -/
def replaceCs : ℕ → List Char → List Char → List Char → List Char
  | 0, _, _, cs => cs
  | _ + 1, _, _, [] => []
  | fuel + 1, pat, rep, c :: rest =>
    if pat.isPrefixOf (c :: rest) then
      rep ++ replaceCs fuel pat rep (List.drop pat.length (c :: rest))
    else
      c :: replaceCs fuel pat rep rest

/-- Python `str.replace(pat, rep)` (all occurrences, left to right).  The
engine only ever calls it with the nonempty patterns `" "` and `"x="`. -/
def pyReplace (s pat rep : String) : String :=
  ⟨replaceCs s.data.length pat.data rep.data s.data⟩

/-- Python substring containment `needle in hay`. -/
def containsCs (needle : List Char) : List Char → Bool
  | [] => needle.isEmpty
  | c :: rest => needle.isPrefixOf (c :: rest) || containsCs needle rest

/-- Python `needle in hay` on `String`s. -/
def pyContains (hay needle : String) : Bool :=
  containsCs needle.data hay.data

/-- Computable floor of a rational (the Mathlib `⌊⌋` instance does not reduce
in the kernel, so concrete evaluations go through `Int.fdiv`). -/
def ratFloor (x : ℚ) : ℤ :=
  x.num.fdiv x.den

/-- Round-half-to-even on an exact rational, the rounding rule of Python's
built-in `round` (on the decimal values arising here). -/
def roundHalfEven (x : ℚ) : ℤ :=
  if x - ratFloor x < 1 / 2 then ratFloor x
  else if 1 / 2 < x - ratFloor x then ratFloor x + 1
  else if ratFloor x % 2 = 0 then ratFloor x else ratFloor x + 1

/-- Python `round(x, d)`: round to `d` decimal places, ties to even. -/
def pyRound (x : ℚ) (d : ℕ) : ℚ :=
  (roundHalfEven (x * 10 ^ d) : ℚ) / 10 ^ d

/-- Numeric value of a run of decimal digits. -/
def digitsToNat (ds : List Char) : ℕ :=
  ds.foldl (fun n c => 10 * n + (c.toNat - '0'.toNat)) 0

/-- Fuel-driven embedding of `re.findall(r'-?\d+\.?\d*', s)`: scan left to
right for maximal optionally-signed, optionally-decimal numeric substrings,
returning the matched tokens in order.  A `-` only starts a match when a digit
follows; the optional `.` may be followed by zero digits. -/
def findNumsCs : ℕ → List Char → List (List Char)
  | 0, _ => []
  | _ + 1, [] => []
  | fuel + 1, c :: rest =>
    if c.isDigit then
      let ds := (c :: rest).takeWhile Char.isDigit
      let r1 := (c :: rest).dropWhile Char.isDigit
      match r1 with
      | '.' :: r2 =>
        (ds ++ '.' :: r2.takeWhile Char.isDigit) ::
          findNumsCs fuel (r2.dropWhile Char.isDigit)
      | _ => ds :: findNumsCs fuel r1
    else if c = '-' then
      match rest with
      | [] => []
      | d :: _ =>
        if d.isDigit then
          let ds := rest.takeWhile Char.isDigit
          let r1 := rest.dropWhile Char.isDigit
          match r1 with
          | '.' :: r2 =>
            ('-' :: ds ++ '.' :: r2.takeWhile Char.isDigit) ::
              findNumsCs fuel (r2.dropWhile Char.isDigit)
          | _ => ('-' :: ds) :: findNumsCs fuel r1
        else findNumsCs fuel rest
    else findNumsCs fuel rest

/-- `re.findall(r'-?\d+\.?\d*', s)` on a `String`. -/
def pyFindNums (s : String) : List String :=
  (findNumsCs s.data.length s.data).map fun cs => (⟨cs⟩ : String)

/-! ### JSON values and a model of `json.loads` on flat objects -/

/-- A JSON leaf value as produced by the model-response parser: the evaluation
engine only ever consumes numbers and strings from the parsed object.  Nested
objects, arrays, booleans, `null`, escape sequences and exponent notation do
not occur in any behaviour claimed for the parser and are treated as a load
failure by the `jsonLoads` model below. -/
inductive JsonVal where
  | jnum (q : ℚ)
  | jstr (s : String)
deriving DecidableEq, Repr

/-- The three fields the engine reads from a parsed Bedrock response. -/
structure ParsedEval where
  score : JsonVal
  status : JsonVal
  feedback : JsonVal
deriving DecidableEq, Repr

/-- Drop leading whitespace. -/
def skipWs (cs : List Char) : List Char :=
  cs.dropWhile pyWs

/-- Parse a JSON string literal (no escape support). -/
def parseJString : List Char → Option (String × List Char)
  | '"' :: rest =>
    match rest.dropWhile (· ≠ '"') with
    | '"' :: r => some (⟨rest.takeWhile (· ≠ '"')⟩, r)
    | _ => none
  | _ => none

/-- Parse an unsigned JSON number (integer or decimal, no exponent). -/
def parseJNumBody (cs : List Char) : Option (ℚ × List Char) :=
  let ds := cs.takeWhile Char.isDigit
  let r1 := cs.dropWhile Char.isDigit
  if ds.isEmpty then none
  else
    match r1 with
    | '.' :: r2 =>
      let fs := r2.takeWhile Char.isDigit
      if fs.isEmpty then none
      else
        some ((digitsToNat ds : ℚ) + (digitsToNat fs : ℚ) / 10 ^ fs.length,
          r2.dropWhile Char.isDigit)
    | _ => some ((digitsToNat ds : ℚ), r1)

/-- Parse a signed JSON number. -/
def parseJNumber : List Char → Option (ℚ × List Char)
  | '-' :: rest => (parseJNumBody rest).map fun p => (-p.1, p.2)
  | cs => parseJNumBody cs

/-- Parse a JSON value (string or number only, see `JsonVal`). -/
def parseJValue (cs : List Char) : Option (JsonVal × List Char) :=
  match cs with
  | '"' :: _ => (parseJString cs).map fun p => (JsonVal.jstr p.1, p.2)
  | _ => (parseJNumber cs).map fun p => (JsonVal.jnum p.1, p.2)

/-- Parse the members of a JSON object after the opening brace, ending at the
closing brace.  The fuel strictly exceeds the number of characters consumed per
step, so passing the string length is always enough. -/
def parseMembers : ℕ → List Char → Option (List (String × JsonVal) × List Char)
  | 0, _ => none
  | fuel + 1, cs =>
    match parseJString (skipWs cs) with
    | none => none
    | some (k, r1) =>
      match skipWs r1 with
      | ':' :: r2 =>
        match parseJValue (skipWs r2) with
        | none => none
        | some (v, r3) =>
          match skipWs r3 with
          | ',' :: r4 => (parseMembers fuel r4).map fun p => ((k, v) :: p.1, p.2)
          | '\x7d' :: r4 => some ([(k, v)], r4)
          | _ => none
      | _ => none

/-- Model of Python's `json.loads` restricted to flat objects with string keys
and number/string values, the only shape the engine's claims exercise; any
other document makes the load fail (which the caller turns into the
"Evaluation parsing failed" default, exactly as a `json.loads` exception
does). -/
def jsonLoads (s : String) : Option (List (String × JsonVal)) :=
  match skipWs s.data with
  | '\x7b' :: rest =>
    match skipWs rest with
    | '\x7d' :: r => if (skipWs r).isEmpty then some [] else none
    | _ =>
      match parseMembers s.data.length rest with
      | some (ms, r) => if (skipWs r).isEmpty then some ms else none
      | none => none
  | _ => none

/-- Python dict lookup on the association list built by `jsonLoads` (later
duplicate keys override earlier ones, as in a Python dict). -/
def jget (obj : List (String × JsonVal)) (k : String) : Option JsonVal :=
  ((obj.filter fun p => p.1 = k).getLast?).map fun p => p.2

/-- Python `key in evaluation` for the three required keys. -/
def keysPresent (obj : List (String × JsonVal)) : Bool :=
  (obj.any fun p => p.1 = "score") && (obj.any fun p => p.1 = "status") &&
    (obj.any fun p => p.1 = "feedback")

/-- View of a successfully loaded object through `evaluation.get(key, default)`
as performed by the caller; the defaults can only fire when a key is missing,
which the `keysPresent` guard rules out on this path. -/
def evalOfObj (obj : List (String × JsonVal)) : ParsedEval :=
  { score := (jget obj "score").getD (JsonVal.jnum 0)
    status := (jget obj "status").getD (JsonVal.jstr "incorrect")
    feedback := (jget obj "feedback").getD (JsonVal.jstr "Evaluation failed") }

/-! ### Regex machinery for `parse_bedrock_evaluation`

The three JSON-shaped patterns and the field-by-field extraction patterns of
the source are fixed regular expressions whose greedy matching is
deterministic; each is embedded as a direct scanner.  `scanFirst` reproduces
`re.search`: the match at the leftmost starting position wins. -/

/-- Try a position matcher at every suffix, leftmost first (`re.search`). -/
def scanFirst (f : List Char → Option α) : List Char → Option α
  | [] => f []
  | c :: rest =>
    match f (c :: rest) with
    | some x => some x
    | none => scanFirst f rest

/-- Character class of the two brace characters. -/
def braceChar (c : Char) : Bool :=
  c = '\x7b' || c = '\x7d'

/-- First alternative of `r'\{[^{}]*\{[^{}]*\}[^{}]*\}|\{[^{}]*\}'` at a fixed
position: an opening brace whose following brace characters are, in order,
another opening brace and two closing braces. -/
def tryAlt1 (cs : List Char) : Option (List Char) :=
  match cs with
  | [] => none
  | c :: r1 =>
    if c = '\x7b' then
      match r1.dropWhile (fun c => !braceChar c) with
      | '\x7b' :: r2 =>
        match r2.dropWhile (fun c => !braceChar c) with
        | '\x7d' :: r3 =>
          match r3.dropWhile (fun c => !braceChar c) with
          | '\x7d' :: _ =>
            some ('\x7b' :: r1.takeWhile (fun c => !braceChar c) ++
              '\x7b' :: r2.takeWhile (fun c => !braceChar c) ++
              '\x7d' :: r3.takeWhile (fun c => !braceChar c) ++ ['\x7d'])
          | _ => none
        | _ => none
      | _ => none
    else none

/-- Second alternative: an opening brace whose next brace character closes it. -/
def tryAlt2 (cs : List Char) : Option (List Char) :=
  match cs with
  | [] => none
  | c :: r1 =>
    if c = '\x7b' then
      match r1.dropWhile (fun c => !braceChar c) with
      | '\x7d' :: _ => some ('\x7b' :: r1.takeWhile (fun c => !braceChar c) ++ ['\x7d'])
      | _ => none
    else none

/-- `re.search(r'\{[^{}]*\{[^{}]*\}[^{}]*\}|\{[^{}]*\}', t)` — nested or
simple JSON-shaped substring. -/
def searchP1 : List Char → Option (List Char) :=
  scanFirst fun cs =>
    match tryAlt1 cs with
    | some m => some m
    | none => tryAlt2 cs

/-- `r'\{"score":\s*\d+[^}]+"}'` at a fixed position. -/
def tryP2 (cs : List Char) : Option (List Char) :=
  let lit : List Char := ['\x7b', '"', 's', 'c', 'o', 'r', 'e', '"', ':']
  if lit.isPrefixOf cs then
    let r1 := cs.drop lit.length
    let wsRun := r1.takeWhile pyWs
    let r2 := r1.dropWhile pyWs
    let ds := r2.takeWhile Char.isDigit
    let r3 := r2.dropWhile Char.isDigit
    if ds.isEmpty then none
    else
      let body := r3.takeWhile (· ≠ '\x7d')
      match r3.dropWhile (· ≠ '\x7d') with
      | '\x7d' :: _ =>
        if 2 ≤ body.length ∧ body.getLast? = some '"' then
          some (lit ++ wsRun ++ ds ++ body ++ ['\x7d'])
        else none
      | _ => none
  else none

/-- `re.search(r'\{"score":\s*\d+[^}]+"}', t)`. -/
def searchP2 : List Char → Option (List Char) :=
  scanFirst tryP2

/-- `r'\{[^}]*"score"[^}]*\}'` at a fixed position. -/
def tryP3 (cs : List Char) : Option (List Char) :=
  match cs with
  | [] => none
  | c :: r1 =>
    if c = '\x7b' then
      match r1.dropWhile (· ≠ '\x7d') with
      | '\x7d' :: _ =>
        if containsCs ['"', 's', 'c', 'o', 'r', 'e', '"'] (r1.takeWhile (· ≠ '\x7d')) then
          some ('\x7b' :: r1.takeWhile (· ≠ '\x7d') ++ ['\x7d'])
        else none
      | _ => none
    else none

/-- `re.search(r'\{[^}]*"score"[^}]*\}', t)`. -/
def searchP3 : List Char → Option (List Char) :=
  scanFirst tryP3

/-- `r'"score":\s*(\d+)'` at a fixed position, returning the captured integer. -/
def tryScore1 (cs : List Char) : Option ℕ :=
  let lit : List Char := ['"', 's', 'c', 'o', 'r', 'e', '"', ':']
  if lit.isPrefixOf cs then
    let r1 := (cs.drop lit.length).dropWhile pyWs
    let ds := r1.takeWhile Char.isDigit
    if ds.isEmpty then none else some (digitsToNat ds)
  else none

/-- `r'score["\s]*:[\s]*(\d+)'` at a fixed position. -/
def tryScore2 (cs : List Char) : Option ℕ :=
  let lit : List Char := ['s', 'c', 'o', 'r', 'e']
  if lit.isPrefixOf cs then
    match (cs.drop lit.length).dropWhile (fun c => c = '"' || pyWs c) with
    | ':' :: r2 =>
      let ds := (r2.dropWhile pyWs).takeWhile Char.isDigit
      if ds.isEmpty then none else some (digitsToNat ds)
    | _ => none
  else none

/-- A quoted capture `"([^"]+)"` after optional whitespace. -/
def quotedCapture (cs : List Char) : Option String :=
  match cs.dropWhile pyWs with
  | '"' :: r1 =>
    let body := r1.takeWhile (· ≠ '"')
    match r1.dropWhile (· ≠ '"') with
    | '"' :: _ => if body.isEmpty then none else some ⟨body⟩
    | _ => none
  | _ => none

/-- `r'"KEY":\s*"([^"]+)"'` at a fixed position (for `status`/`feedback`). -/
def tryQuoted1 (key : List Char) (cs : List Char) : Option String :=
  let lit := '"' :: key ++ ['"', ':']
  if lit.isPrefixOf cs then quotedCapture (cs.drop lit.length) else none

/-- `r'KEY["\s]*:[\s]*"([^"]+)"'` at a fixed position. -/
def tryQuoted2 (key : List Char) (cs : List Char) : Option String :=
  if key.isPrefixOf cs then
    match (cs.drop key.length).dropWhile (fun c => c = '"' || pyWs c) with
    | ':' :: r2 => quotedCapture r2
    | _ => none
  else none

/-- The manual field-by-field extraction block of `parse_bedrock_evaluation`:
`score` from the first matching integer pattern (default `0`), `status` and
`feedback` from the first matching quoted-string pattern (defaults
`"incorrect"` and `"Manual extraction"`). -/
def manual_extraction (t : String) : ParsedEval :=
  { score := JsonVal.jnum
      (((scanFirst tryScore1 t.data).orElse fun _ => scanFirst tryScore2 t.data).getD 0 : ℕ)
    status := JsonVal.jstr
      (((scanFirst (tryQuoted1 ['s', 't', 'a', 't', 'u', 's']) t.data).orElse
        fun _ => scanFirst (tryQuoted2 ['s', 't', 'a', 't', 'u', 's']) t.data).getD "incorrect")
    feedback := JsonVal.jstr
      (((scanFirst (tryQuoted1 ['f', 'e', 'e', 'd', 'b', 'a', 'c', 'k']) t.data).orElse
        fun _ => scanFirst (tryQuoted2 ['f', 'e', 'e', 'd', 'b', 'a', 'c', 'k']) t.data).getD
        "Manual extraction") }

/-- Outcome of one pattern iteration of the JSON-extraction loop. -/
inductive JsonAttempt where
  | accepted (ev : ParsedEval)
  | aborted
  | next
deriving DecidableEq, Repr

/-- One iteration of the pattern loop in `parse_bedrock_evaluation`: search the
pattern; on a match run `json.loads` (an exception aborts the whole parse) and
accept the object only when all of `score`, `status`, `feedback` are present;
otherwise move to the next pattern. -/
def jsonStep (t : String) (search : List Char → Option (List Char)) : JsonAttempt :=
  match search t.data with
  | none => JsonAttempt.next
  | some sub =>
    match jsonLoads ⟨sub⟩ with
    | none => JsonAttempt.aborted
    | some obj => if keysPresent obj then JsonAttempt.accepted (evalOfObj obj) else JsonAttempt.next

/-- The `except` default of `parse_bedrock_evaluation`. -/
def parseFailureDefault : ParsedEval :=
  ⟨JsonVal.jnum 0, JsonVal.jstr "incorrect", JsonVal.jstr "Evaluation parsing failed"⟩

/-- `parse_bedrock_evaluation(evaluation_text)`: try the three JSON patterns in
order, then fall back to manual field extraction; a `json.loads` failure inside
the loop is caught by the outer handler and yields the failure default.  The
function is total — the parser itself never raises. -/
def parse_bedrock_evaluation (evaluation_text : String) : ParsedEval :=
  match jsonStep evaluation_text searchP1 with
  | JsonAttempt.accepted ev => ev
  | JsonAttempt.aborted => parseFailureDefault
  | JsonAttempt.next =>
    match jsonStep evaluation_text searchP2 with
    | JsonAttempt.accepted ev => ev
    | JsonAttempt.aborted => parseFailureDefault
    | JsonAttempt.next =>
      match jsonStep evaluation_text searchP3 with
      | JsonAttempt.accepted ev => ev
      | JsonAttempt.aborted => parseFailureDefault
      | JsonAttempt.next => manual_extraction evaluation_text

/-! ### Data model -/

/-- One entry of `answers` / `extracted_answers` in a submission document.
`question_number` is kept optional because the source reads it with
`answer.get('question_number')` and stringifies it (`str(None) = "None"`). -/
structure AnswerEntry where
  question_number : Option String
  answer_text : Option String
deriving DecidableEq

/-- A submission document as read from S3 (dict access modelled by optional
fields with the source's defaults applied at the use sites). -/
structure Submission where
  submission_type : Option String
  answers : List AnswerEntry
  extracted_answers : List AnswerEntry
  extracted_text : Option String
deriving DecidableEq

/-- One question of an assignment's answer key. -/
structure Question where
  question_number : String
  question_text : String
  approved_answer : Option String
  suggested_answer : Option String
  max_score : Option ℚ
deriving DecidableEq

/-- A per-question evaluation result record. -/
structure EvaluationResult where
  question_number : String
  question_text : String
  student_answer : String
  correct_answer : String
  score : ℚ
  max_score : ℚ
  status : String
  feedback : String
  ai_evaluation : Bool
deriving DecidableEq

/-- The aggregate produced by one evaluation run (the fields of the
`process_evaluation` return value owned by the scoring engine). -/
structure EvaluationRecord where
  results : List EvaluationResult
  final_score : ℚ
  max_score : ℚ
  status : String
deriving DecidableEq

/-- Python `str(x)` on an optional question-number field. -/
def strOfQN : Option String → String
  | some s => s
  | none => "None"

/-- `find_student_answer(submission_content, question_number)`. -/
def find_student_answer (submission_content : Submission) (question_number : String) : String :=
  if submission_content.submission_type.getD "" = "google_forms" then
    match submission_content.answers.find? fun a => strOfQN a.question_number = question_number with
    | some a => a.answer_text.getD ""
    | none => ""
  else if submission_content.submission_type.getD "" = "file_upload" then
    match submission_content.extracted_answers.find?
        fun a => strOfQN a.question_number = question_number with
    | some a => a.answer_text.getD ""
    | none => submission_content.extracted_text.getD "File content evaluation required"
  else ""

/-! ### The evaluation engine -/

/-- The external Bedrock text service: model id to raw output text, or an
exception (`invoke_model` / response decoding failure). -/
abbrev AIService := String → Except Unit String

/-- The ordered model-id fallback list of `evaluate_single_question`. -/
def available_models : List String :=
  ["amazon.titan-text-express-v1", "amazon.titan-text-lite-v1"]

/-- String view of a parsed JSON value as stored into the string-typed
`status`/`feedback` fields.  Python stores the raw value in its result dict; a
non-string value here is outside every claimed behaviour and is normalised to
the empty string. -/
def jvalString : JsonVal → String
  | JsonVal.jstr s => s
  | JsonVal.jnum _ => ""

/-- `mathClean s = s.lower().replace(' ', '').replace('x=', '')`, the cleaning
step shared by `smart_math_fallback` and `evaluate_math_answer`. -/
def mathClean (s : String) : String :=
  pyReplace (pyReplace (pyLower s) " " "") "x=" ""

/-- `smart_math_fallback(question_number, question_text, student_answer,
correct_answer, max_score)`: the fallback used when every Bedrock model fails.
The question-number-"1" special case fires before the empty-answer check. -/
def smart_math_fallback (question_number question_text student_answer correct_answer : String)
    (max_score : ℚ) : EvaluationResult :=
  if question_number = "1" ∧ pyContains (mathClean student_answer) "2" = true ∧
      pyContains (mathClean student_answer) "3" = true then
    { question_number := question_number, question_text := question_text
      student_answer := student_answer, correct_answer := correct_answer
      score := max_score, max_score := max_score, status := "correct"
      feedback := "Correct solutions identified: x=2 and x=3", ai_evaluation := false }
  else if pyIsBlank student_answer = true then
    { question_number := question_number, question_text := question_text
      student_answer := student_answer, correct_answer := correct_answer
      score := 0, max_score := max_score, status := "not_attempted"
      feedback := "No answer provided", ai_evaluation := false }
  else
    { question_number := question_number, question_text := question_text
      student_answer := student_answer, correct_answer := correct_answer
      score := 0, max_score := max_score, status := "incorrect"
      feedback := "Answer evaluation failed", ai_evaluation := false }

/-- One iteration of the model loop in `evaluate_single_question`: invoke the
service, parse the output, and build the AI-accepted result with
`min(score, max_score)`.  Any exception inside the per-model `try` — the
invocation itself, or the `min` of a non-numeric parsed score — makes the
attempt fail (`continue`). -/
def tryModel (ai : AIService) (model_id question_text student_answer correct_answer : String)
    (max_score : ℚ) (question_number : String) : Option EvaluationResult :=
  match ai model_id with
  | Except.error _ => none
  | Except.ok raw =>
    match (parse_bedrock_evaluation raw).score with
    | JsonVal.jstr _ => none
    | JsonVal.jnum q =>
      some { question_number := question_number, question_text := question_text
             student_answer := student_answer, correct_answer := correct_answer
             score := min q max_score, max_score := max_score
             status := jvalString (parse_bedrock_evaluation raw).status
             feedback := jvalString (parse_bedrock_evaluation raw).feedback
             ai_evaluation := true }

/-- `evaluate_single_question(bedrock, question_text, student_answer,
correct_answer, max_score, question_number)`: try the models in order and
return the first accepted AI result; when every model fails, the internal
`except` returns `smart_math_fallback` — the function itself never raises. -/
def evaluate_single_question (ai : AIService)
    (question_text student_answer correct_answer : String) (max_score : ℚ)
    (question_number : String) : EvaluationResult :=
  match available_models.findSome?
      (fun m => tryModel ai m question_text student_answer correct_answer max_score question_number) with
  | some r => r
  | none => smart_math_fallback question_number question_text student_answer correct_answer max_score

/-- The quantitative-keyword list of `enhanced_fallback_evaluation`. -/
def math_keywords : List String :=
  ["solve", "equation", "x=", "find", "calculate"]

/-- Numeric token set of a cleaned answer:
`set(re.findall(r'-?\d+\.?\d*', clean))`. -/
def mathNums (s : String) : Finset String :=
  (pyFindNums (mathClean s)).toFinset

/-- `evaluate_math_answer(question_number, question_text, student_answer,
correct_answer, max_score)`: numeric-token set comparison with tiered scores,
rounded to one decimal place. -/
def evaluate_math_answer (question_number question_text student_answer correct_answer : String)
    (max_score : ℚ) : EvaluationResult :=
  if mathNums student_answer = mathNums correct_answer then
    { question_number := question_number, question_text := question_text
      student_answer := student_answer, correct_answer := correct_answer
      score := pyRound max_score 1, max_score := max_score, status := "correct"
      feedback := "Correct numerical answer", ai_evaluation := false }
  else if ((mathNums correct_answer).card : ℚ) * (7 / 10) ≤
      (((mathNums student_answer) ∩ (mathNums correct_answer)).card : ℚ) then
    { question_number := question_number, question_text := question_text
      student_answer := student_answer, correct_answer := correct_answer
      score := pyRound (max_score * (8 / 10)) 1, max_score := max_score, status := "partial"
      feedback := "Most numbers correct", ai_evaluation := false }
  else if ((mathNums correct_answer).card : ℚ) * (5 / 10) ≤
      (((mathNums student_answer) ∩ (mathNums correct_answer)).card : ℚ) then
    { question_number := question_number, question_text := question_text
      student_answer := student_answer, correct_answer := correct_answer
      score := pyRound (max_score * (5 / 10)) 1, max_score := max_score, status := "partial"
      feedback := "Some numbers correct", ai_evaluation := false }
  else
    { question_number := question_number, question_text := question_text
      student_answer := student_answer, correct_answer := correct_answer
      score := pyRound 0 1, max_score := max_score, status := "incorrect"
      feedback := "Numbers don't match expected answer", ai_evaluation := false }

/-- Word set of an answer: `set(s.lower().split())`. -/
def wordSet (s : String) : Finset String :=
  (pySplitWs (pyLower s)).toFinset

/-- `evaluate_text_answer(question_number, question_text, student_answer,
correct_answer, max_score)`: word-overlap comparison with tiered scores,
rounded to one decimal place. -/
def evaluate_text_answer (question_number question_text student_answer correct_answer : String)
    (max_score : ℚ) : EvaluationResult :=
  if ((wordSet correct_answer).card : ℚ) * (7 / 10) ≤
      (((wordSet student_answer) ∩ (wordSet correct_answer)).card : ℚ) then
    { question_number := question_number, question_text := question_text
      student_answer := student_answer, correct_answer := correct_answer
      score := pyRound max_score 1, max_score := max_score, status := "correct"
      feedback := "Answer matches key concepts", ai_evaluation := false }
  else if ((wordSet correct_answer).card : ℚ) * (4 / 10) ≤
      (((wordSet student_answer) ∩ (wordSet correct_answer)).card : ℚ) then
    { question_number := question_number, question_text := question_text
      student_answer := student_answer, correct_answer := correct_answer
      score := pyRound (max_score * (5 / 10)) 1, max_score := max_score, status := "partial"
      feedback := "Answer has some correct elements", ai_evaluation := false }
  else
    { question_number := question_number, question_text := question_text
      student_answer := student_answer, correct_answer := correct_answer
      score := pyRound 0 1, max_score := max_score, status := "incorrect"
      feedback := "Answer doesn't match expected concepts", ai_evaluation := false }

/-- `enhanced_fallback_evaluation(question_text, student_answer,
correct_answer, max_score, question_number)`: the Numeric/Text Matcher —
empty answer, else keyword dispatch between the numeric and the word-overlap
comparison. -/
def enhanced_fallback_evaluation (question_text student_answer correct_answer : String)
    (max_score : ℚ) (question_number : String) : EvaluationResult :=
  if pyIsBlank student_answer = true then
    { question_number := question_number, question_text := question_text
      student_answer := student_answer, correct_answer := correct_answer
      score := 0, max_score := max_score, status := "not_attempted"
      feedback := "No answer provided", ai_evaluation := false }
  else if math_keywords.any (fun t => pyContains (pyLower question_text) t) then
    evaluate_math_answer question_number question_text student_answer correct_answer max_score
  else
    evaluate_text_answer question_number question_text student_answer correct_answer max_score

/-- `question.get('approved_answer') or question.get('suggested_answer', '')`
(Python `or` takes the second operand when the first is missing or empty). -/
def effectiveCorrectAnswer (q : Question) : String :=
  match q.approved_answer with
  | some a => if a = "" then q.suggested_answer.getD "" else a
  | none => q.suggested_answer.getD ""

/-- The body of the per-question loop of `evaluate_with_bedrock`: locate the
answer; an empty located answer synthesises the `not_attempted` result without
consulting the AI service, otherwise evaluate via `evaluate_single_question`. -/
def evalOneQuestion (ai : AIService) (submission_content : Submission) (q : Question) :
    EvaluationResult :=
  if find_student_answer submission_content q.question_number = "" then
    { question_number := q.question_number, question_text := q.question_text
      student_answer := "", correct_answer := effectiveCorrectAnswer q
      score := 0, max_score := q.max_score.getD 10, status := "not_attempted"
      feedback := "No answer provided", ai_evaluation := false }
  else
    evaluate_single_question ai q.question_text
      (find_student_answer submission_content q.question_number)
      (effectiveCorrectAnswer q) (q.max_score.getD 10) q.question_number

/-- `evaluate_with_bedrock(submission_content, assignment_details)`: one result
per question, in question order.  (The orchestrator's own `except` branch that
would call `enhanced_fallback_evaluation` is unreachable in the string-typed
model because `evaluate_single_question` catches every model failure
internally.) -/
def evaluate_with_bedrock (ai : AIService) (submission_content : Submission)
    (questions : List Question) : List EvaluationResult :=
  questions.map (evalOneQuestion ai submission_content)

/-- `calculate_final_score(evaluation_results)`. -/
def calculate_final_score (evaluation_results : List EvaluationResult) : ℚ :=
  pyRound (evaluation_results.map (fun r => r.score)).sum 2

/-- `get_max_score_from_results(evaluation_results)`. -/
def get_max_score_from_results (evaluation_results : List EvaluationResult) : ℚ :=
  (evaluation_results.map (fun r => r.max_score)).sum

/-- The scoring-engine core of `process_evaluation`: evaluate all questions and
aggregate the totals into the completed record. -/
def run_evaluation (ai : AIService) (submission_content : Submission)
    (questions : List Question) : EvaluationRecord :=
  { results := evaluate_with_bedrock ai submission_content questions
    final_score := calculate_final_score (evaluate_with_bedrock ai submission_content questions)
    max_score := get_max_score_from_results (evaluate_with_bedrock ai submission_content questions)
    status := "completed" }

/-- A service for which every model invocation throws. -/
def aiAllFail : AIService := fun _ => Except.error ()

/-! ### Concrete fixtures used by the witnesses below -/

/-- A google-forms submission with two answered questions (and a duplicate
entry behind the first match). -/
def subG : Submission :=
  { submission_type := some "google_forms"
    answers := [⟨some "1", some "A1"⟩, ⟨some "2", some "A2"⟩, ⟨some "2", some "DUP"⟩]
    extracted_answers := [], extracted_text := none }

/-- A file-upload submission with one extracted answer and a whole-document
fallback text. -/
def subF : Submission :=
  { submission_type := some "file_upload"
    answers := [], extracted_answers := [⟨some "3", some "E3"⟩]
    extracted_text := some "whole document text" }

/-- A submission with an unrecognised type. -/
def subU : Submission :=
  { submission_type := some "mystery", answers := [], extracted_answers := []
    extracted_text := none }

/-- A question that `subG` does not answer. -/
def qUnanswered : Question :=
  { question_number := "9", question_text := "Explain the water cycle"
    approved_answer := none, suggested_answer := some "water evaporates and condenses"
    max_score := some 10 }

/-- A service whose models reply with parsable plain-text scores. -/
def aiScore8 : AIService :=
  fun _ => Except.ok "score: 8, status: \"partial\", feedback: \"ok\""

/-- A raw response text containing no opening brace. -/
def noBraceChar (t : String) : Bool :=
  t.data.all fun c => c ≠ '\x7b'

/-- A service whose single response is a syntactically valid JSON object with
a negative score. -/
def aiNegativeScore : AIService :=
  fun _ => Except.ok "\x7b\"score\": -5, \"status\": \"incorrect\", \"feedback\": \"bad\"\x7d"

/-- A quantitative question answered in `subG`. -/
def qMath : Question :=
  { question_number := "2", question_text := "solve the equation"
    approved_answer := some "x=2,3", suggested_answer := none, max_score := some 10 }

/-- A fixed deterministic text-service stub. -/
def aiStubA : AIService :=
  fun _ => Except.ok "score: 7, status: \"partial\", feedback: \"close enough\""

/-- A second, definitionally separate copy of the same stub. -/
def aiStubB : AIService :=
  fun _ => Except.ok "score: 7, status: \"partial\", feedback: \"close enough\""

/-! ### Properties of the rounding model -/

theorem ratFloor_eq (x : ℚ) : ratFloor x = ⌊x⌋ := by
  rw [Rat.floor_def, ratFloor, Int.fdiv_eq_ediv _ (by positivity)]

theorem roundHalfEven_floor_form (x : ℚ) :
    roundHalfEven x =
      if x - ⌊x⌋ < 1 / 2 then ⌊x⌋
      else if 1 / 2 < x - ⌊x⌋ then ⌊x⌋ + 1
      else if ⌊x⌋ % 2 = 0 then ⌊x⌋ else ⌊x⌋ + 1 := by
  rw [roundHalfEven, ratFloor_eq]

theorem floor_le_roundHalfEven (x : ℚ) : ⌊x⌋ ≤ roundHalfEven x := by
  rw [roundHalfEven_floor_form]
  split_ifs <;> omega

theorem roundHalfEven_le_floor_add_one (x : ℚ) : roundHalfEven x ≤ ⌊x⌋ + 1 := by
  rw [roundHalfEven_floor_form]
  split_ifs <;> omega

theorem roundHalfEven_mono {x y : ℚ} (h : x ≤ y) : roundHalfEven x ≤ roundHalfEven y := by
  have hf : ⌊x⌋ ≤ ⌊y⌋ := Int.floor_mono h
  rcases eq_or_lt_of_le hf with heq | hlt
  · rw [roundHalfEven_floor_form, roundHalfEven_floor_form, ← heq]
    have hxy : x - ⌊x⌋ ≤ y - ⌊x⌋ := by linarith
    split_ifs <;> first | omega | linarith
  · calc roundHalfEven x ≤ ⌊x⌋ + 1 := roundHalfEven_le_floor_add_one x
      _ ≤ ⌊y⌋ := by omega
      _ ≤ roundHalfEven y := floor_le_roundHalfEven y

theorem roundHalfEven_intCast (n : ℤ) : roundHalfEven (n : ℚ) = n := by
  rw [roundHalfEven_floor_form, Int.floor_intCast]
  norm_num

theorem pyRound_mono {x y : ℚ} (h : x ≤ y) (d : ℕ) : pyRound x d ≤ pyRound y d := by
  unfold pyRound
  have h10 : (0 : ℚ) < 10 ^ d := by positivity
  refine (div_le_div_iff_of_pos_right h10).mpr ?_
  exact_mod_cast roundHalfEven_mono (mul_le_mul_of_nonneg_right h (le_of_lt h10))

theorem pyRound_zero (d : ℕ) : pyRound 0 d = 0 := by
  unfold pyRound
  rw [zero_mul]
  have h0 : roundHalfEven ((0 : ℤ) : ℚ) = 0 := roundHalfEven_intCast 0
  norm_num at h0
  rw [h0]
  norm_num

theorem pyRound_nonneg {x : ℚ} (h : 0 ≤ x) (d : ℕ) : 0 ≤ pyRound x d := by
  have := pyRound_mono h d
  rwa [pyRound_zero d] at this

/-- Bounded rounding: when `m` is a fixed point of one-decimal rounding (every
integral or one-decimal maximum score is), rounding cannot push a value past
`m`. -/
theorem pyRound_le_of_le {x m : ℚ} (hx : x ≤ m) (hm : pyRound m 1 = m) : pyRound x 1 ≤ m :=
  le_of_le_of_eq (pyRound_mono hx 1) hm

/-! ### Structural lemmas about the engine -/

theorem smart_math_fallback_fields (qn qt sa ca : String) (ms : ℚ) :
    (smart_math_fallback qn qt sa ca ms).ai_evaluation = false ∧
    (smart_math_fallback qn qt sa ca ms).max_score = ms ∧
    (smart_math_fallback qn qt sa ca ms).question_number = qn := by
  unfold smart_math_fallback
  split_ifs <;> exact ⟨rfl, rfl, rfl⟩

theorem smart_math_fallback_score_mem (qn qt sa ca : String) (ms : ℚ) :
    (smart_math_fallback qn qt sa ca ms).score = ms ∨
    (smart_math_fallback qn qt sa ca ms).score = 0 := by
  unfold smart_math_fallback
  split_ifs
  · exact Or.inl rfl
  · exact Or.inr rfl
  · exact Or.inr rfl

theorem tryModel_eq_some {ai : AIService} {m qt sa ca : String} {ms : ℚ} {qn : String}
    {r : EvaluationResult} (h : tryModel ai m qt sa ca ms qn = some r) :
    r.max_score = ms ∧ r.score ≤ ms ∧ r.ai_evaluation = true ∧ r.question_number = qn := by
  cases hai : ai m with
  | error e =>
    simp [tryModel, hai] at h
  | ok raw =>
    cases hsc : (parse_bedrock_evaluation raw).score with
    | jstr s =>
      simp [tryModel, hai, hsc] at h
    | jnum q =>
      simp only [tryModel, hai, hsc, Option.some.injEq] at h
      subst h
      exact ⟨rfl, min_le_right q ms, rfl, rfl⟩

theorem evaluate_single_question_cases (ai : AIService) (qt sa ca : String) (ms : ℚ)
    (qn : String) :
    (∃ m ∈ available_models,
        tryModel ai m qt sa ca ms qn = some (evaluate_single_question ai qt sa ca ms qn)) ∨
    evaluate_single_question ai qt sa ca ms qn = smart_math_fallback qn qt sa ca ms := by
  unfold evaluate_single_question
  cases hfs : available_models.findSome?
      (fun m => tryModel ai m qt sa ca ms qn) with
  | none => exact Or.inr rfl
  | some r =>
    obtain ⟨m, hm, hsome⟩ := List.exists_of_findSome?_eq_some hfs
    exact Or.inl ⟨m, hm, hsome⟩

theorem evaluate_single_question_fields (ai : AIService) (qt sa ca : String) (ms : ℚ)
    (qn : String) :
    (evaluate_single_question ai qt sa ca ms qn).max_score = ms ∧
    (evaluate_single_question ai qt sa ca ms qn).question_number = qn := by
  rcases evaluate_single_question_cases ai qt sa ca ms qn with ⟨m, _, hsome⟩ | hfb
  · obtain ⟨h1, _, _, h4⟩ := tryModel_eq_some hsome
    exact ⟨h1, h4⟩
  · rw [hfb]
    exact ⟨(smart_math_fallback_fields qn qt sa ca ms).2.1,
      (smart_math_fallback_fields qn qt sa ca ms).2.2⟩

theorem evaluate_single_question_score_le (ai : AIService) (qt sa ca : String) {ms : ℚ}
    (hms : 0 ≤ ms) (qn : String) :
    (evaluate_single_question ai qt sa ca ms qn).score ≤ ms := by
  rcases evaluate_single_question_cases ai qt sa ca ms qn with ⟨m, _, hsome⟩ | hfb
  · exact (tryModel_eq_some hsome).2.1
  · rw [hfb]
    rcases smart_math_fallback_score_mem qn qt sa ca ms with h | h <;> rw [h]
    exact hms

theorem evaluate_single_question_nonneg_of_fallback (ai : AIService) (qt sa ca : String)
    {ms : ℚ} (hms : 0 ≤ ms) (qn : String)
    (hai : (evaluate_single_question ai qt sa ca ms qn).ai_evaluation = false) :
    0 ≤ (evaluate_single_question ai qt sa ca ms qn).score := by
  rcases evaluate_single_question_cases ai qt sa ca ms qn with ⟨m, _, hsome⟩ | hfb
  · exact absurd hai (by rw [(tryModel_eq_some hsome).2.2.1]; simp)
  · rw [hfb]
    rcases smart_math_fallback_score_mem qn qt sa ca ms with h | h <;> rw [h]
    exact hms

theorem evalOneQuestion_question_number (ai : AIService) (sub : Submission) (q : Question) :
    (evalOneQuestion ai sub q).question_number = q.question_number := by
  unfold evalOneQuestion
  split_ifs
  · rfl
  · exact (evaluate_single_question_fields ai q.question_text _ _ _ q.question_number).2

theorem evaluate_math_answer_bounds (qn qt sa ca : String) {ms : ℚ} (hms : 0 ≤ ms)
    (h1 : pyRound ms 1 = ms) :
    0 ≤ (evaluate_math_answer qn qt sa ca ms).score ∧
    (evaluate_math_answer qn qt sa ca ms).score ≤ ms := by
  unfold evaluate_math_answer
  split_ifs
  · exact ⟨pyRound_nonneg hms 1, pyRound_le_of_le (le_refl ms) h1⟩
  · exact ⟨pyRound_nonneg (by linarith) 1, pyRound_le_of_le (by linarith) h1⟩
  · exact ⟨pyRound_nonneg (by linarith) 1, pyRound_le_of_le (by linarith) h1⟩
  · rw [pyRound_zero 1]
    exact ⟨le_refl 0, hms⟩

theorem evaluate_text_answer_bounds (qn qt sa ca : String) {ms : ℚ} (hms : 0 ≤ ms)
    (h1 : pyRound ms 1 = ms) :
    0 ≤ (evaluate_text_answer qn qt sa ca ms).score ∧
    (evaluate_text_answer qn qt sa ca ms).score ≤ ms := by
  unfold evaluate_text_answer
  split_ifs
  · exact ⟨pyRound_nonneg hms 1, pyRound_le_of_le (le_refl ms) h1⟩
  · exact ⟨pyRound_nonneg (by linarith) 1, pyRound_le_of_le (by linarith) h1⟩
  · rw [pyRound_zero 1]
    exact ⟨le_refl 0, hms⟩

theorem enhanced_fallback_evaluation_bounds (qt sa ca : String) {ms : ℚ} (hms : 0 ≤ ms)
    (h1 : pyRound ms 1 = ms) (qn : String) :
    0 ≤ (enhanced_fallback_evaluation qt sa ca ms qn).score ∧
    (enhanced_fallback_evaluation qt sa ca ms qn).score ≤ ms := by
  unfold enhanced_fallback_evaluation
  split_ifs
  · exact ⟨le_refl 0, hms⟩
  · exact evaluate_math_answer_bounds qn qt sa ca hms h1
  · exact evaluate_text_answer_bounds qn qt sa ca hms h1

/-- When every model invocation throws, `evaluate_single_question` returns the
`smart_math_fallback` result (its internal `except` fires; the orchestrator's
handler never sees an exception). -/
theorem all_models_fail_fallback (ai : AIService) (qt sa ca : String) (ms : ℚ) (qn : String)
    (h1 : ai "amazon.titan-text-express-v1" = Except.error ())
    (h2 : ai "amazon.titan-text-lite-v1" = Except.error ()) :
    evaluate_single_question ai qt sa ca ms qn = smart_math_fallback qn qt sa ca ms := by
  unfold evaluate_single_question available_models
  simp [List.findSome?_cons, List.findSome?_nil, tryModel, h1, h2]

/-! ### Claim theorems -/

/-- C3: the Answer Locator is total and never raises.  For a `google_forms`
submission it returns the `answer_text` of the first entry of `answers` whose
stringified `question_number` equals the requested one, else the empty string;
for a `file_upload` submission it scans `extracted_answers` the same way and on
no match returns the submission's `extracted_text` verbatim; any other
submission type yields the empty string.  (Totality is inherent: the embedded
function is a total Lean function.) -/
theorem c3_answer_locator (sub : Submission) (qn : String) :
    (sub.submission_type.getD "" = "google_forms" →
      find_student_answer sub qn =
        (match sub.answers.find? (fun a => strOfQN a.question_number = qn) with
         | some a => a.answer_text.getD ""
         | none => "")) ∧
    (sub.submission_type.getD "" = "file_upload" →
      ∀ t : String, sub.extracted_text = some t →
        find_student_answer sub qn =
          (match sub.extracted_answers.find? (fun a => strOfQN a.question_number = qn) with
           | some a => a.answer_text.getD ""
           | none => t)) ∧
    (sub.submission_type.getD "" ≠ "google_forms" →
      sub.submission_type.getD "" ≠ "file_upload" →
      find_student_answer sub qn = "") := by
  refine ⟨?_, ?_, ?_⟩
  · intro h
    unfold find_student_answer
    rw [if_pos h]
  · intro h t ht
    unfold find_student_answer
    rw [h, if_neg (by decide), if_pos rfl, ht]
    cases hf : sub.extracted_answers.find? (fun a => strOfQN a.question_number = qn) <;>
      simp [hf]
  · intro h1 h2
    unfold find_student_answer
    rw [if_neg h1, if_neg h2]

theorem c3_answer_locator_witness :
    subG.submission_type.getD "" = "google_forms" ∧
    subF.submission_type.getD "" = "file_upload" ∧
    subF.extracted_text = some "whole document text" ∧
    subU.submission_type.getD "" ≠ "google_forms" ∧
    subU.submission_type.getD "" ≠ "file_upload" ∧
    find_student_answer subG "2" = "A2" ∧
    find_student_answer subF "3" = "E3" ∧
    find_student_answer subF "1" = "whole document text" ∧
    find_student_answer subU "1" = "" :=
  ⟨rfl, rfl, rfl, by decide, by decide,
    ((c3_answer_locator subG "2").1 rfl).trans (by decide),
    ((c3_answer_locator subF "3").2.1 rfl "whole document text" rfl).trans (by decide),
    ((c3_answer_locator subF "1").2.1 rfl "whole document text" rfl).trans (by decide),
    (c3_answer_locator subU "1").2.2 (by decide) (by decide)⟩

/-- C4: a question whose located answer is the empty string gets the
synthesised `not_attempted` result — score `0`, feedback `"No answer
provided"`, `ai_evaluation = false` — and the AI service is never consulted:
the result is the same for every service. -/
theorem c4_empty_answer_synthesis (ai : AIService) (sub : Submission) (q : Question)
    (h : find_student_answer sub q.question_number = "") :
    evalOneQuestion ai sub q =
      { question_number := q.question_number, question_text := q.question_text
        student_answer := "", correct_answer := effectiveCorrectAnswer q
        score := 0, max_score := q.max_score.getD 10, status := "not_attempted"
        feedback := "No answer provided", ai_evaluation := false } ∧
    ∀ ai2 : AIService, evalOneQuestion ai sub q = evalOneQuestion ai2 sub q := by
  constructor
  · unfold evalOneQuestion
    rw [if_pos h]
  · intro ai2
    unfold evalOneQuestion
    simp only [if_pos h]

theorem c4_empty_answer_synthesis_witness :
    find_student_answer subG qUnanswered.question_number = "" ∧
    evalOneQuestion aiAllFail subG qUnanswered =
      { question_number := "9", question_text := "Explain the water cycle"
        student_answer := "", correct_answer := "water evaporates and condenses"
        score := 0, max_score := 10, status := "not_attempted"
        feedback := "No answer provided", ai_evaluation := false } ∧
    evalOneQuestion aiAllFail subG qUnanswered = evalOneQuestion aiScore8 subG qUnanswered :=
  ⟨by decide,
    (c4_empty_answer_synthesis aiAllFail subG qUnanswered (by decide)).1,
    (c4_empty_answer_synthesis aiAllFail subG qUnanswered (by decide)).2 aiScore8⟩

/-- C2 counterexample: with every model invocation throwing, the accepted
result for a `solve`-keyword question with matching numeric answers is the
`smart_math_fallback` zero-score `"incorrect"` result, not the Numeric/Text
Matcher result (which would award full marks): the claimed equality with the
matcher fails at this input. -/
theorem c2_matcher_equality_counterexample :
    evaluate_single_question aiAllFail "solve x" "2,3" "2,3" 10 "5" ≠
      enhanced_fallback_evaluation "solve x" "2,3" "2,3" 10 "5" ∧
    (evaluate_single_question aiAllFail "solve x" "2,3" "2,3" 10 "5").score = 0 ∧
    (evaluate_single_question aiAllFail "solve x" "2,3" "2,3" 10 "5").status = "incorrect" ∧
    (evaluate_single_question aiAllFail "solve x" "2,3" "2,3" 10 "5").feedback =
      "Answer evaluation failed" ∧
    (enhanced_fallback_evaluation "solve x" "2,3" "2,3" 10 "5").score = 10 ∧
    (enhanced_fallback_evaluation "solve x" "2,3" "2,3" 10 "5").status = "correct" := by
  refine ⟨by decide, by decide, by decide, by decide, by decide, by decide⟩

/-- C2 amended: when the service throws for every model identifier, the result
accepted by the orchestrator for the question equals `smart_math_fallback` on
the same inputs (the question-"1" special case, the blank-answer case, or the
zero-score `"incorrect"` case), and its `ai_evaluation` is `false`; the
keyword-dispatched Numeric/Text Matcher is not reached on this path. -/
theorem c2_all_models_fail_gives_smart_fallback (ai : AIService) (qt sa ca : String)
    (ms : ℚ) (qn : String)
    (h1 : ai "amazon.titan-text-express-v1" = Except.error ())
    (h2 : ai "amazon.titan-text-lite-v1" = Except.error ()) :
    evaluate_single_question ai qt sa ca ms qn = smart_math_fallback qn qt sa ca ms ∧
    (evaluate_single_question ai qt sa ca ms qn).ai_evaluation = false := by
  have h := all_models_fail_fallback ai qt sa ca ms qn h1 h2
  refine ⟨h, ?_⟩
  rw [h]
  exact (smart_math_fallback_fields qn qt sa ca ms).1

theorem c2_all_models_fail_gives_smart_fallback_witness :
    aiAllFail "amazon.titan-text-express-v1" = Except.error () ∧
    aiAllFail "amazon.titan-text-lite-v1" = Except.error () ∧
    evaluate_single_question aiAllFail "solve x" "x=2,3" "2,3" 10 "7" =
      smart_math_fallback "7" "solve x" "x=2,3" "2,3" 10 ∧
    (evaluate_single_question aiAllFail "solve x" "x=2,3" "2,3" 10 "7").ai_evaluation = false :=
  ⟨rfl, rfl,
    (c2_all_models_fail_gives_smart_fallback aiAllFail "solve x" "x=2,3" "2,3" 10 "7" rfl rfl).1,
    (c2_all_models_fail_gives_smart_fallback aiAllFail "solve x" "x=2,3" "2,3" 10 "7" rfl rfl).2⟩

/-- C10: when every model invocation throws, a question numbered `"1"` whose
cleaned student answer (lower-cased, spaces and `"x="` removed) contains both
`'2'` and `'3'` receives full marks with status `"correct"` and the fixed
feedback string, regardless of the reference answer and the question text. -/
theorem c10_question_one_special_case (ai : AIService) (qt sa ca : String) (ms : ℚ)
    (h1 : ai "amazon.titan-text-express-v1" = Except.error ())
    (h2 : ai "amazon.titan-text-lite-v1" = Except.error ())
    (h3 : pyContains (mathClean sa) "2" = true)
    (h4 : pyContains (mathClean sa) "3" = true) :
    evaluate_single_question ai qt sa ca ms "1" =
      { question_number := "1", question_text := qt, student_answer := sa
        correct_answer := ca, score := ms, max_score := ms, status := "correct"
        feedback := "Correct solutions identified: x=2 and x=3", ai_evaluation := false } := by
  rw [all_models_fail_fallback ai qt sa ca ms "1" h1 h2]
  unfold smart_math_fallback
  rw [if_pos ⟨rfl, h3, h4⟩]

theorem c10_question_one_special_case_witness :
    aiAllFail "amazon.titan-text-express-v1" = Except.error () ∧
    aiAllFail "amazon.titan-text-lite-v1" = Except.error () ∧
    pyContains (mathClean "x=3, x=2") "2" = true ∧
    pyContains (mathClean "x=3, x=2") "3" = true ∧
    evaluate_single_question aiAllFail "any question" "x=3, x=2" "unrelated reference" 10 "1" =
      { question_number := "1", question_text := "any question", student_answer := "x=3, x=2"
        correct_answer := "unrelated reference", score := 10, max_score := 10, status := "correct"
        feedback := "Correct solutions identified: x=2 and x=3", ai_evaluation := false } :=
  ⟨rfl, rfl, by decide, by decide,
    c10_question_one_special_case aiAllFail "any question" "x=3, x=2" "unrelated reference" 10
      rfl rfl (by decide) (by decide)⟩

/-! ### Support lemmas for the parser claim -/

theorem scanFirst_none {α : Type} (f : List Char → Option α)
    (hf : ∀ cs : List Char, cs.all (fun c => c ≠ '\x7b') = true → f cs = none) :
    ∀ l : List Char, l.all (fun c => c ≠ '\x7b') = true → scanFirst f l = none := by
  intro l
  induction l with
  | nil =>
    intro h
    exact hf [] rfl
  | cons c rest ih =>
    intro h
    have h2 := h
    rw [List.all_cons, Bool.and_eq_true] at h2
    unfold scanFirst
    rw [hf (c :: rest) h]
    exact ih h2.2

theorem tryAlt1_head_none {c : Char} {r : List Char} (hc : c ≠ '\x7b') :
    tryAlt1 (c :: r) = none := by
  simp only [tryAlt1]
  rw [if_neg hc]

theorem tryAlt2_head_none {c : Char} {r : List Char} (hc : c ≠ '\x7b') :
    tryAlt2 (c :: r) = none := by
  simp only [tryAlt2]
  rw [if_neg hc]

theorem tryP3_head_none {c : Char} {r : List Char} (hc : c ≠ '\x7b') :
    tryP3 (c :: r) = none := by
  simp only [tryP3]
  rw [if_neg hc]

theorem tryP2_none {cs : List Char} (h : cs.all (fun c => c ≠ '\x7b') = true) :
    tryP2 cs = none := by
  cases cs with
  | nil => rfl
  | cons c r =>
    rw [List.all_cons, Bool.and_eq_true, decide_eq_true_eq] at h
    have hp : ((['\x7b', '"', 's', 'c', 'o', 'r', 'e', '"', ':'] : List Char).isPrefixOf
        (c :: r)) = false := by
      simp [List.isPrefixOf]
      intro heq
      exact absurd heq.symm h.1
    simp [tryP2, hp]

theorem searchP1_no_brace {t : List Char} (h : t.all (fun c => c ≠ '\x7b') = true) :
    searchP1 t = none := by
  unfold searchP1
  refine scanFirst_none _ (fun cs hcs => ?_) t h
  cases cs with
  | nil => rfl
  | cons c r =>
    rw [List.all_cons, Bool.and_eq_true, decide_eq_true_eq] at hcs
    simp [tryAlt1_head_none hcs.1, tryAlt2_head_none hcs.1]

theorem searchP2_no_brace {t : List Char} (h : t.all (fun c => c ≠ '\x7b') = true) :
    searchP2 t = none := by
  unfold searchP2
  exact scanFirst_none _ (fun cs hcs => tryP2_none hcs) t h

theorem searchP3_no_brace {t : List Char} (h : t.all (fun c => c ≠ '\x7b') = true) :
    searchP3 t = none := by
  unfold searchP3
  refine scanFirst_none _ (fun cs hcs => ?_) t h
  cases cs with
  | nil => rfl
  | cons c r =>
    rw [List.all_cons, Bool.and_eq_true, decide_eq_true_eq] at hcs
    exact tryP3_head_none hcs.1

theorem parse_no_brace {t : String} (h : noBraceChar t = true) :
    parse_bedrock_evaluation t = manual_extraction t := by
  unfold noBraceChar at h
  simp [parse_bedrock_evaluation, jsonStep, searchP1_no_brace h, searchP2_no_brace h,
    searchP3_no_brace h]

/-- C8: parsing attempts bracket-based JSON extraction first — a text with no
opening brace makes all three JSON patterns fail, and the parser falls through
to the independent field-by-field extraction whose missing-field defaults are
`0`, `"incorrect"` and `"Manual extraction"`; on the claim's concrete
brace-free input the extraction recovers score `8`, status `"partial"`,
feedback `"close"`.  The parser is a total function and never raises. -/
theorem c8_parser_recovery (t : String) (hnb : noBraceChar t = true) :
    parse_bedrock_evaluation
        "Here is the result: score: 8, status: \"partial\", feedback: \"close\"" =
      ⟨JsonVal.jnum 8, JsonVal.jstr "partial", JsonVal.jstr "close"⟩ ∧
    parse_bedrock_evaluation t = manual_extraction t ∧
    (scanFirst tryScore1 t.data = none → scanFirst tryScore2 t.data = none →
      (manual_extraction t).score = JsonVal.jnum 0) ∧
    (scanFirst (tryQuoted1 ['s', 't', 'a', 't', 'u', 's']) t.data = none →
      scanFirst (tryQuoted2 ['s', 't', 'a', 't', 'u', 's']) t.data = none →
      (manual_extraction t).status = JsonVal.jstr "incorrect") ∧
    (scanFirst (tryQuoted1 ['f', 'e', 'e', 'd', 'b', 'a', 'c', 'k']) t.data = none →
      scanFirst (tryQuoted2 ['f', 'e', 'e', 'd', 'b', 'a', 'c', 'k']) t.data = none →
      (manual_extraction t).feedback = JsonVal.jstr "Manual extraction") := by
  refine ⟨by decide, parse_no_brace hnb, ?_, ?_, ?_⟩
  · intro ha hb
    simp [manual_extraction, ha, hb, Option.orElse]
  · intro ha hb
    simp [manual_extraction, ha, hb, Option.orElse]
  · intro ha hb
    simp [manual_extraction, ha, hb, Option.orElse]

theorem c8_parser_recovery_witness :
    noBraceChar "hello there" = true ∧
    scanFirst tryScore1 "hello there".data = none ∧
    scanFirst tryScore2 "hello there".data = none ∧
    scanFirst (tryQuoted1 ['s', 't', 'a', 't', 'u', 's']) "hello there".data = none ∧
    scanFirst (tryQuoted2 ['s', 't', 'a', 't', 'u', 's']) "hello there".data = none ∧
    scanFirst (tryQuoted1 ['f', 'e', 'e', 'd', 'b', 'a', 'c', 'k']) "hello there".data = none ∧
    scanFirst (tryQuoted2 ['f', 'e', 'e', 'd', 'b', 'a', 'c', 'k']) "hello there".data = none ∧
    parse_bedrock_evaluation
        "Here is the result: score: 8, status: \"partial\", feedback: \"close\"" =
      ⟨JsonVal.jnum 8, JsonVal.jstr "partial", JsonVal.jstr "close"⟩ ∧
    parse_bedrock_evaluation "hello there" = manual_extraction "hello there" ∧
    (manual_extraction "hello there").score = JsonVal.jnum 0 ∧
    (manual_extraction "hello there").status = JsonVal.jstr "incorrect" ∧
    (manual_extraction "hello there").feedback = JsonVal.jstr "Manual extraction" :=
  ⟨by decide, by decide, by decide, by decide, by decide, by decide, by decide,
    (c8_parser_recovery "hello there" (by decide)).1,
    (c8_parser_recovery "hello there" (by decide)).2.1,
    (c8_parser_recovery "hello there" (by decide)).2.2.1 (by decide) (by decide),
    (c8_parser_recovery "hello there" (by decide)).2.2.2.1 (by decide) (by decide),
    (c8_parser_recovery "hello there" (by decide)).2.2.2.2 (by decide) (by decide)⟩

/-- C5: for a question whose text contains a quantitative keyword, the
non-blank fallback dispatches to the numeric matcher, which compares the sets
of numeric tokens extracted from the cleaned (lower-cased, space- and
`"x="`-stripped) answers: identical sets give full marks and `"correct"`; an
intersection of at least 70% of the reference set size gives `0.8 * max_score`
and `"partial"`; at least 50% gives `0.5 * max_score` and `"partial"`;
otherwise `0` and `"incorrect"`; every score is rounded to one decimal place.
In particular reference `"x=2,3"` against candidate `"x=3,2"` or `"x = 2, 3"`
is `"correct"` with full marks. -/
theorem c5_numeric_matcher (qn qt sa ca : String) (ms : ℚ) :
    (pyIsBlank sa = false →
      math_keywords.any (fun t => pyContains (pyLower qt) t) = true →
      enhanced_fallback_evaluation qt sa ca ms qn = evaluate_math_answer qn qt sa ca ms) ∧
    (mathNums sa = mathNums ca →
      (evaluate_math_answer qn qt sa ca ms).score = pyRound ms 1 ∧
      (evaluate_math_answer qn qt sa ca ms).status = "correct") ∧
    (mathNums sa ≠ mathNums ca →
      ((mathNums ca).card : ℚ) * (7 / 10) ≤ ((mathNums sa ∩ mathNums ca).card : ℚ) →
      (evaluate_math_answer qn qt sa ca ms).score = pyRound (ms * (8 / 10)) 1 ∧
      (evaluate_math_answer qn qt sa ca ms).status = "partial") ∧
    (mathNums sa ≠ mathNums ca →
      ¬ ((mathNums ca).card : ℚ) * (7 / 10) ≤ ((mathNums sa ∩ mathNums ca).card : ℚ) →
      ((mathNums ca).card : ℚ) * (5 / 10) ≤ ((mathNums sa ∩ mathNums ca).card : ℚ) →
      (evaluate_math_answer qn qt sa ca ms).score = pyRound (ms * (5 / 10)) 1 ∧
      (evaluate_math_answer qn qt sa ca ms).status = "partial") ∧
    (mathNums sa ≠ mathNums ca →
      ¬ ((mathNums ca).card : ℚ) * (7 / 10) ≤ ((mathNums sa ∩ mathNums ca).card : ℚ) →
      ¬ ((mathNums ca).card : ℚ) * (5 / 10) ≤ ((mathNums sa ∩ mathNums ca).card : ℚ) →
      (evaluate_math_answer qn qt sa ca ms).score = 0 ∧
      (evaluate_math_answer qn qt sa ca ms).status = "incorrect") ∧
    mathNums "x=3,2" = mathNums "x=2,3" ∧
    mathNums "x = 2, 3" = mathNums "x=2,3" ∧
    ((evaluate_math_answer qn qt "x=3,2" "x=2,3" ms).score = pyRound ms 1 ∧
      (evaluate_math_answer qn qt "x=3,2" "x=2,3" ms).status = "correct") ∧
    ((evaluate_math_answer qn qt "x = 2, 3" "x=2,3" ms).score = pyRound ms 1 ∧
      (evaluate_math_answer qn qt "x = 2, 3" "x=2,3" ms).status = "correct") := by
  refine ⟨?_, ?_, ?_, ?_, ?_, by decide, by decide, ?_, ?_⟩
  · intro hblank hkey
    unfold enhanced_fallback_evaluation
    rw [if_neg (by simp [hblank]), if_pos hkey]
  · intro h
    unfold evaluate_math_answer
    rw [if_pos h]
    exact ⟨rfl, rfl⟩
  · intro hne h7
    unfold evaluate_math_answer
    rw [if_neg hne, if_pos h7]
    exact ⟨rfl, rfl⟩
  · intro hne h7 h5
    unfold evaluate_math_answer
    rw [if_neg hne, if_neg h7, if_pos h5]
    exact ⟨rfl, rfl⟩
  · intro hne h7 h5
    unfold evaluate_math_answer
    rw [if_neg hne, if_neg h7, if_neg h5]
    exact ⟨pyRound_zero 1, rfl⟩
  · unfold evaluate_math_answer
    rw [if_pos (by decide)]
    exact ⟨rfl, rfl⟩
  · unfold evaluate_math_answer
    rw [if_pos (by decide)]
    exact ⟨rfl, rfl⟩

theorem c5_numeric_matcher_witness :
    pyIsBlank "1,2,3,4,5,6,7,99" = false ∧
    math_keywords.any (fun t => pyContains (pyLower "solve the equation") t) = true ∧
    enhanced_fallback_evaluation "solve the equation" "1,2,3,4,5,6,7,99"
        "1,2,3,4,5,6,7,8,9,10" 10 "4" =
      evaluate_math_answer "4" "solve the equation" "1,2,3,4,5,6,7,99"
        "1,2,3,4,5,6,7,8,9,10" 10 ∧
    mathNums "1,2,3,4,5,6,7,99" ≠ mathNums "1,2,3,4,5,6,7,8,9,10" ∧
    ((mathNums "1,2,3,4,5,6,7,8,9,10").card : ℚ) * (7 / 10) ≤
      ((mathNums "1,2,3,4,5,6,7,99" ∩ mathNums "1,2,3,4,5,6,7,8,9,10").card : ℚ) ∧
    (evaluate_math_answer "4" "solve the equation" "1,2,3,4,5,6,7,99"
        "1,2,3,4,5,6,7,8,9,10" 10).score = pyRound (10 * (8 / 10)) 1 ∧
    (evaluate_math_answer "4" "solve the equation" "1,2,3,4,5,6,7,99"
        "1,2,3,4,5,6,7,8,9,10" 10).status = "partial" ∧
    (evaluate_math_answer "4" "q" "x=3,2" "x=2,3" 10).score = pyRound 10 1 ∧
    (evaluate_math_answer "4" "q" "x=3,2" "x=2,3" 10).status = "correct" :=
  ⟨by decide, by decide,
    (c5_numeric_matcher "4" "solve the equation" "1,2,3,4,5,6,7,99"
      "1,2,3,4,5,6,7,8,9,10" 10).1 (by decide) (by decide),
    by decide, by decide,
    ((c5_numeric_matcher "4" "solve the equation" "1,2,3,4,5,6,7,99"
      "1,2,3,4,5,6,7,8,9,10" 10).2.2.1 (by decide) (by decide)).1,
    ((c5_numeric_matcher "4" "solve the equation" "1,2,3,4,5,6,7,99"
      "1,2,3,4,5,6,7,8,9,10" 10).2.2.1 (by decide) (by decide)).2,
    ((c5_numeric_matcher "4" "q" "x=3,2" "x=2,3" 10).2.2.2.2.2.2.2.1).1,
    ((c5_numeric_matcher "4" "q" "x=3,2" "x=2,3" 10).2.2.2.2.2.2.2.1).2⟩

/-- C6 counterexample: the word-overlap matcher rounds its score to one
decimal place, so with `max_score = 41/4 = 10.25` a full-overlap candidate
(overlap 100% ≥ 70%) receives `10.2`, not `max_score` as the claim states. -/
theorem c6_unrounded_score_counterexample :
    ((wordSet "explain the water cycle process").card : ℚ) * (7 / 10) ≤
      ((wordSet "explain the water cycle process" ∩
        wordSet "explain the water cycle process").card : ℚ) ∧
    (evaluate_text_answer "3" "describe rain" "explain the water cycle process"
        "explain the water cycle process" (41 / 4)).status = "correct" ∧
    (evaluate_text_answer "3" "describe rain" "explain the water cycle process"
        "explain the water cycle process" (41 / 4)).score = 51 / 5 ∧
    (evaluate_text_answer "3" "describe rain" "explain the water cycle process"
        "explain the water cycle process" (41 / 4)).score ≠ 41 / 4 := by
  refine ⟨by decide, by decide, by decide, by decide⟩

/-- C6 amended: the word-overlap matcher lower-cases and
whitespace-tokenises both answers into word sets and compares the intersection
size against the reference word-set size with inclusive thresholds — at least
70% gives full marks and `"correct"`, at least 40% gives half marks and
`"partial"`, otherwise `0` and `"incorrect"` — with every score rounded to one
decimal place (so `score = max_score` exactly when `max_score` has at most one
decimal, as every integral score does); a 5-word reference with exactly 2
shared words is `"partial"` with half marks and with exactly 1 shared word is
`"incorrect"` with score `0`. -/
theorem c6_word_overlap_matcher (qn qt sa ca : String) (ms : ℚ) :
    (pyIsBlank sa = false →
      math_keywords.any (fun t => pyContains (pyLower qt) t) = false →
      enhanced_fallback_evaluation qt sa ca ms qn = evaluate_text_answer qn qt sa ca ms) ∧
    (((wordSet ca).card : ℚ) * (7 / 10) ≤ ((wordSet sa ∩ wordSet ca).card : ℚ) →
      (evaluate_text_answer qn qt sa ca ms).score = pyRound ms 1 ∧
      (evaluate_text_answer qn qt sa ca ms).status = "correct") ∧
    (¬ ((wordSet ca).card : ℚ) * (7 / 10) ≤ ((wordSet sa ∩ wordSet ca).card : ℚ) →
      ((wordSet ca).card : ℚ) * (4 / 10) ≤ ((wordSet sa ∩ wordSet ca).card : ℚ) →
      (evaluate_text_answer qn qt sa ca ms).score = pyRound (ms * (5 / 10)) 1 ∧
      (evaluate_text_answer qn qt sa ca ms).status = "partial") ∧
    (¬ ((wordSet ca).card : ℚ) * (7 / 10) ≤ ((wordSet sa ∩ wordSet ca).card : ℚ) →
      ¬ ((wordSet ca).card : ℚ) * (4 / 10) ≤ ((wordSet sa ∩ wordSet ca).card : ℚ) →
      (evaluate_text_answer qn qt sa ca ms).score = 0 ∧
      (evaluate_text_answer qn qt sa ca ms).status = "incorrect") ∧
    (wordSet "explain the water cycle process").card = 5 ∧
    ((wordSet sa ∩ wordSet "explain the water cycle process").card = 2 →
      (evaluate_text_answer qn qt sa "explain the water cycle process" ms).score =
        pyRound (ms * (5 / 10)) 1 ∧
      (evaluate_text_answer qn qt sa "explain the water cycle process" ms).status =
        "partial") ∧
    ((wordSet sa ∩ wordSet "explain the water cycle process").card = 1 →
      (evaluate_text_answer qn qt sa "explain the water cycle process" ms).score = 0 ∧
      (evaluate_text_answer qn qt sa "explain the water cycle process" ms).status =
        "incorrect") := by
  have hdisp : pyIsBlank sa = false →
      math_keywords.any (fun t => pyContains (pyLower qt) t) = false →
      enhanced_fallback_evaluation qt sa ca ms qn = evaluate_text_answer qn qt sa ca ms := by
    intro hblank hkey
    unfold enhanced_fallback_evaluation
    rw [if_neg (by simp [hblank]), if_neg (by simp [hkey])]
  have hfull : ∀ ca2 : String,
      ((wordSet ca2).card : ℚ) * (7 / 10) ≤ ((wordSet sa ∩ wordSet ca2).card : ℚ) →
      (evaluate_text_answer qn qt sa ca2 ms).score = pyRound ms 1 ∧
      (evaluate_text_answer qn qt sa ca2 ms).status = "correct" := by
    intro ca2 h7
    unfold evaluate_text_answer
    rw [if_pos h7]
    exact ⟨rfl, rfl⟩
  have hhalf : ∀ ca2 : String,
      ¬ ((wordSet ca2).card : ℚ) * (7 / 10) ≤ ((wordSet sa ∩ wordSet ca2).card : ℚ) →
      ((wordSet ca2).card : ℚ) * (4 / 10) ≤ ((wordSet sa ∩ wordSet ca2).card : ℚ) →
      (evaluate_text_answer qn qt sa ca2 ms).score = pyRound (ms * (5 / 10)) 1 ∧
      (evaluate_text_answer qn qt sa ca2 ms).status = "partial" := by
    intro ca2 h7 h4
    unfold evaluate_text_answer
    rw [if_neg h7, if_pos h4]
    exact ⟨rfl, rfl⟩
  have hzero : ∀ ca2 : String,
      ¬ ((wordSet ca2).card : ℚ) * (7 / 10) ≤ ((wordSet sa ∩ wordSet ca2).card : ℚ) →
      ¬ ((wordSet ca2).card : ℚ) * (4 / 10) ≤ ((wordSet sa ∩ wordSet ca2).card : ℚ) →
      (evaluate_text_answer qn qt sa ca2 ms).score = 0 ∧
      (evaluate_text_answer qn qt sa ca2 ms).status = "incorrect" := by
    intro ca2 h7 h4
    unfold evaluate_text_answer
    rw [if_neg h7, if_neg h4]
    exact ⟨pyRound_zero 1, rfl⟩
  have hcard : (wordSet "explain the water cycle process").card = 5 := by decide
  refine ⟨hdisp, hfull ca, hhalf ca, hzero ca, hcard, ?_, ?_⟩
  · intro h2
    refine hhalf "explain the water cycle process" ?_ ?_
    · rw [hcard, h2]
      norm_num
    · rw [hcard, h2]
      norm_num
  · intro h1
    refine hzero "explain the water cycle process" ?_ ?_
    · rw [hcard, h1]
      norm_num
    · rw [hcard, h1]
      norm_num

theorem c6_word_overlap_matcher_witness :
    pyIsBlank "the water process" = false ∧
    math_keywords.any (fun t => pyContains (pyLower "describe the rain") t) = false ∧
    enhanced_fallback_evaluation "describe the rain" "the water process"
        "explain the water cycle process" 10 "3" =
      evaluate_text_answer "3" "describe the rain" "the water process"
        "explain the water cycle process" 10 ∧
    (wordSet "the process" ∩ wordSet "explain the water cycle process").card = 2 ∧
    (evaluate_text_answer "3" "describe the rain" "the process"
        "explain the water cycle process" 10).score = pyRound (10 * (5 / 10)) 1 ∧
    (evaluate_text_answer "3" "describe the rain" "the process"
        "explain the water cycle process" 10).status = "partial" ∧
    (wordSet "process" ∩ wordSet "explain the water cycle process").card = 1 ∧
    (evaluate_text_answer "3" "describe the rain" "process"
        "explain the water cycle process" 10).score = 0 ∧
    (evaluate_text_answer "3" "describe the rain" "process"
        "explain the water cycle process" 10).status = "incorrect" :=
  ⟨by decide, by decide,
    (c6_word_overlap_matcher "3" "describe the rain" "the water process"
      "explain the water cycle process" 10).1 (by decide) (by decide),
    by decide,
    ((c6_word_overlap_matcher "3" "describe the rain" "the process"
      "explain the water cycle process" 10).2.2.2.2.2.1 (by decide)).1,
    ((c6_word_overlap_matcher "3" "describe the rain" "the process"
      "explain the water cycle process" 10).2.2.2.2.2.1 (by decide)).2,
    by decide,
    ((c6_word_overlap_matcher "3" "describe the rain" "process"
      "explain the water cycle process" 10).2.2.2.2.2.2 (by decide)).1,
    ((c6_word_overlap_matcher "3" "describe the rain" "process"
      "explain the water cycle process" 10).2.2.2.2.2.2 (by decide)).2⟩

theorem evaluate_math_answer_max (qn qt sa ca : String) (ms : ℚ) :
    (evaluate_math_answer qn qt sa ca ms).max_score = ms := by
  unfold evaluate_math_answer
  split_ifs <;> rfl

theorem evaluate_text_answer_max (qn qt sa ca : String) (ms : ℚ) :
    (evaluate_text_answer qn qt sa ca ms).max_score = ms := by
  unfold evaluate_text_answer
  split_ifs <;> rfl

theorem enhanced_fallback_evaluation_max (qt sa ca : String) (ms : ℚ) (qn : String) :
    (enhanced_fallback_evaluation qt sa ca ms qn).max_score = ms := by
  unfold enhanced_fallback_evaluation
  split_ifs
  · rfl
  · exact evaluate_math_answer_max qn qt sa ca ms
  · exact evaluate_text_answer_max qn qt sa ca ms

/-- C1 counterexample: the AI path stores `min(parsed_score, max_score)` in
the result, which caps the score above but not below — a parsed score of `-5`
is placed in the accepted result unchanged, violating `0 ≤ score`. -/
theorem c1_no_lower_clamp_counterexample :
    (evaluate_single_question aiNegativeScore "q" "an answer" "ref" 10 "2").score = -5 ∧
    (evaluate_single_question aiNegativeScore "q" "an answer" "ref" 10 "2").max_score = 10 ∧
    (evaluate_single_question aiNegativeScore "q" "an answer" "ref" 10 "2").ai_evaluation =
      true ∧
    ¬ 0 ≤ (evaluate_single_question aiNegativeScore "q" "an answer" "ref" 10 "2").score := by
  refine ⟨by decide, by decide, by decide, by decide⟩

/-- C1 amended: with a non-negative maximum score, every result produced by
the per-question orchestration satisfies `score ≤ max_score`, and every result
not accepted from the AI path (`ai_evaluation = false` — the synthesised
`not_attempted` results and the fallback) also satisfies `0 ≤ score`; the
AI-accepted score is only capped above by `min(score, max_score)`, so its
lower bound holds exactly when the parsed score is non-negative.  The
standalone Numeric/Text Matcher results lie in `[0, max_score]` whenever
`max_score` is additionally a fixed point of one-decimal rounding (as every
integral maximum score is); rounding can otherwise exceed `max_score`. -/
theorem c1_score_bounds (ai : AIService) (sub : Submission) (q : Question)
    (qn qt sa ca : String) (ms : ℚ)
    (hq : 0 ≤ q.max_score.getD 10) (hms : 0 ≤ ms) (h1 : pyRound ms 1 = ms) :
    (evalOneQuestion ai sub q).score ≤ (evalOneQuestion ai sub q).max_score ∧
    ((evalOneQuestion ai sub q).ai_evaluation = false → 0 ≤ (evalOneQuestion ai sub q).score) ∧
    (0 ≤ (evaluate_math_answer qn qt sa ca ms).score ∧
      (evaluate_math_answer qn qt sa ca ms).score ≤
        (evaluate_math_answer qn qt sa ca ms).max_score) ∧
    (0 ≤ (evaluate_text_answer qn qt sa ca ms).score ∧
      (evaluate_text_answer qn qt sa ca ms).score ≤
        (evaluate_text_answer qn qt sa ca ms).max_score) ∧
    (0 ≤ (enhanced_fallback_evaluation qt sa ca ms qn).score ∧
      (enhanced_fallback_evaluation qt sa ca ms qn).score ≤
        (enhanced_fallback_evaluation qt sa ca ms qn).max_score) := by
  refine ⟨?_, ?_, ?_, ?_, ?_⟩
  · unfold evalOneQuestion
    split_ifs with hf
    · exact hq
    · rw [(evaluate_single_question_fields ai q.question_text
        (find_student_answer sub q.question_number) (effectiveCorrectAnswer q)
        (q.max_score.getD 10) q.question_number).1]
      exact evaluate_single_question_score_le ai q.question_text
        (find_student_answer sub q.question_number) (effectiveCorrectAnswer q) hq
        q.question_number
  · unfold evalOneQuestion
    split_ifs with hf
    · intro _
      exact le_refl 0
    · exact evaluate_single_question_nonneg_of_fallback ai q.question_text
        (find_student_answer sub q.question_number) (effectiveCorrectAnswer q) hq
        q.question_number
  · rw [evaluate_math_answer_max qn qt sa ca ms]
    exact evaluate_math_answer_bounds qn qt sa ca hms h1
  · rw [evaluate_text_answer_max qn qt sa ca ms]
    exact evaluate_text_answer_bounds qn qt sa ca hms h1
  · rw [enhanced_fallback_evaluation_max qt sa ca ms qn]
    exact enhanced_fallback_evaluation_bounds qt sa ca hms h1 qn

theorem c1_score_bounds_witness :
    (0 : ℚ) ≤ qUnanswered.max_score.getD 10 ∧ (0 : ℚ) ≤ 10 ∧ pyRound 10 1 = 10 ∧
    (evalOneQuestion aiNegativeScore subG qUnanswered).score ≤
      (evalOneQuestion aiNegativeScore subG qUnanswered).max_score ∧
    (0 ≤ (evaluate_math_answer "4" "solve" "2,3" "x=2,3" 10).score ∧
      (evaluate_math_answer "4" "solve" "2,3" "x=2,3" 10).score ≤
        (evaluate_math_answer "4" "solve" "2,3" "x=2,3" 10).max_score) ∧
    (0 ≤ (evaluate_text_answer "4" "t" "the process" "explain the water cycle process" 10).score ∧
      (evaluate_text_answer "4" "t" "the process" "explain the water cycle process" 10).score ≤
        (evaluate_text_answer "4" "t" "the process"
          "explain the water cycle process" 10).max_score) :=
  ⟨by decide, by decide, by decide,
    (c1_score_bounds aiNegativeScore subG qUnanswered "4" "solve" "2,3" "x=2,3" 10
      (by decide) (by decide) (by decide)).1,
    (c1_score_bounds aiNegativeScore subG qUnanswered "4" "solve" "2,3" "x=2,3" 10
      (by decide) (by decide) (by decide)).2.2.1,
    (c1_score_bounds aiNegativeScore subG qUnanswered "4" "t" "the process"
      "explain the water cycle process" 10 (by decide) (by decide) (by decide)).2.2.2.1⟩

/-- C7: one evaluation run yields exactly one result per question, in question
order (witnessed by the preserved question numbers at every index), with
`final_score` the two-decimal rounding of the sum of the per-question scores
and `max_score` the plain sum of the per-question maximum scores. -/
theorem c7_aggregate_record (ai : AIService) (sub : Submission) (qs : List Question) :
    (run_evaluation ai sub qs).results.length = qs.length ∧
    (∀ i : ℕ, ∀ h : i < qs.length, ∀ h2 : i < (run_evaluation ai sub qs).results.length,
      ((run_evaluation ai sub qs).results.get ⟨i, h2⟩).question_number =
        (qs.get ⟨i, h⟩).question_number) ∧
    (run_evaluation ai sub qs).final_score =
      pyRound ((run_evaluation ai sub qs).results.map (fun r => r.score)).sum 2 ∧
    (run_evaluation ai sub qs).max_score =
      ((run_evaluation ai sub qs).results.map (fun r => r.max_score)).sum := by
  refine ⟨?_, ?_, rfl, rfl⟩
  · simp [run_evaluation, evaluate_with_bedrock]
  · intro i h h2
    have hres : (run_evaluation ai sub qs).results = qs.map (evalOneQuestion ai sub) := rfl
    have h2' : i < (qs.map (evalOneQuestion ai sub)).length := by rwa [hres] at h2
    calc ((run_evaluation ai sub qs).results.get ⟨i, h2⟩).question_number
        = ((qs.map (evalOneQuestion ai sub)).get ⟨i, h2'⟩).question_number := rfl
      _ = (evalOneQuestion ai sub (qs.get ⟨i, h⟩)).question_number := by
          rw [List.get_eq_getElem, List.get_eq_getElem, List.getElem_map]
      _ = (qs.get ⟨i, h⟩).question_number :=
          evalOneQuestion_question_number ai sub (qs.get ⟨i, h⟩)

theorem c7_aggregate_record_witness :
    (run_evaluation aiScore8 subG [qMath, qUnanswered]).results.length =
      ([qMath, qUnanswered] : List Question).length ∧
    ((run_evaluation aiScore8 subG [qMath, qUnanswered]).results.get
        ⟨0, by decide⟩).question_number =
      (([qMath, qUnanswered] : List Question).get ⟨0, by decide⟩).question_number ∧
    ((run_evaluation aiScore8 subG [qMath, qUnanswered]).results.get
        ⟨1, by decide⟩).question_number =
      (([qMath, qUnanswered] : List Question).get ⟨1, by decide⟩).question_number ∧
    (run_evaluation aiScore8 subG [qMath, qUnanswered]).final_score =
      pyRound ((run_evaluation aiScore8 subG [qMath, qUnanswered]).results.map
        (fun r => r.score)).sum 2 ∧
    (run_evaluation aiScore8 subG [qMath, qUnanswered]).max_score =
      ((run_evaluation aiScore8 subG [qMath, qUnanswered]).results.map
        (fun r => r.max_score)).sum :=
  ⟨(c7_aggregate_record aiScore8 subG [qMath, qUnanswered]).1,
    (c7_aggregate_record aiScore8 subG [qMath, qUnanswered]).2.1 0 (by decide) (by decide),
    (c7_aggregate_record aiScore8 subG [qMath, qUnanswered]).2.1 1 (by decide) (by decide),
    (c7_aggregate_record aiScore8 subG [qMath, qUnanswered]).2.2.1,
    (c7_aggregate_record aiScore8 subG [qMath, qUnanswered]).2.2.2⟩

theorem tryModel_congr {ai1 ai2 : AIService} {m : String}
    (h : ai1 m = ai2 m) (qt sa ca : String) (ms : ℚ) (qn : String) :
    tryModel ai1 m qt sa ca ms qn = tryModel ai2 m qt sa ca ms qn := by
  unfold tryModel
  rw [h]

/-- C9: the evaluation engine is deterministic — its output depends only on
the submission content, the question list, and the input-output behaviour of
the text service on the two consulted model identifiers.  Two runs against
services that agree there (in particular two runs with the same fixed
deterministic service, or with any always-throwing service) produce identical
result lists, `final_score`, and `max_score`. -/
theorem c9_deterministic (ai1 ai2 : AIService) (sub : Submission) (qs : List Question)
    (h1 : ai1 "amazon.titan-text-express-v1" = ai2 "amazon.titan-text-express-v1")
    (h2 : ai1 "amazon.titan-text-lite-v1" = ai2 "amazon.titan-text-lite-v1") :
    run_evaluation ai1 sub qs = run_evaluation ai2 sub qs ∧
    (run_evaluation ai1 sub qs).results = (run_evaluation ai2 sub qs).results ∧
    (run_evaluation ai1 sub qs).final_score = (run_evaluation ai2 sub qs).final_score ∧
    (run_evaluation ai1 sub qs).max_score = (run_evaluation ai2 sub qs).max_score := by
  have hq : ∀ q : Question, evalOneQuestion ai1 sub q = evalOneQuestion ai2 sub q := by
    intro q
    unfold evalOneQuestion
    split_ifs with hf
    · rfl
    · unfold evaluate_single_question available_models
      simp only [List.findSome?_cons, List.findSome?_nil]
      rw [tryModel_congr h1 q.question_text
          (find_student_answer sub q.question_number) (effectiveCorrectAnswer q)
          (q.max_score.getD 10) q.question_number,
        tryModel_congr h2 q.question_text
          (find_student_answer sub q.question_number) (effectiveCorrectAnswer q)
          (q.max_score.getD 10) q.question_number]
  have hr : evaluate_with_bedrock ai1 sub qs = evaluate_with_bedrock ai2 sub qs := by
    unfold evaluate_with_bedrock
    exact List.map_congr_left fun q _ => hq q
  have hrec : run_evaluation ai1 sub qs = run_evaluation ai2 sub qs := by
    unfold run_evaluation
    rw [hr]
  exact ⟨hrec, by rw [hrec], by rw [hrec], by rw [hrec]⟩

theorem c9_deterministic_witness :
    aiStubA "amazon.titan-text-express-v1" = aiStubB "amazon.titan-text-express-v1" ∧
    aiStubA "amazon.titan-text-lite-v1" = aiStubB "amazon.titan-text-lite-v1" ∧
    run_evaluation aiStubA subG [qMath, qUnanswered] =
      run_evaluation aiStubB subG [qMath, qUnanswered] ∧
    (run_evaluation aiStubA subG [qMath, qUnanswered]).final_score =
      (run_evaluation aiStubB subG [qMath, qUnanswered]).final_score :=
  ⟨rfl, rfl,
    (c9_deterministic aiStubA aiStubB subG [qMath, qUnanswered] rfl rfl).1,
    (c9_deterministic aiStubA aiStubB subG [qMath, qUnanswered] rfl rfl).2.2.1⟩
